import Mathlib

/-!
Verification of the statcheck consistency engine
(`src/statcheck/pipeline.py`, class `StatcheckTester`).

The engine is embedded shallowly:

* Python floats are modelled as rationals (`ℚ`).
* Python's `int` / `float` distinction on degrees of freedom matters
  (`isinstance(df, int)` gates the Huynh-Feldt correction), so a degree of
  freedom is a `PyNum`: a rational value together with an `isInt` flag.
* A reported p-value in an extracted record is either a number or a string
  (`"ns"`, or an unparseable token); this is `RVal`.
* Calls into external libraries — scipy's survival functions, Python's
  `str`/`format`/`round` on floats and `x ** 0.5` — are fields of an
  environment structure `Py` that every embedded function takes as its first
  argument.  A concrete demo environment (`pyDemo`) whose fields agree with
  the real libraries on the inputs exercised is used for concrete evaluations.
* Python's `float(...)` conversion with its `ValueError` is modelled by
  `pyFloat : RVal → Option ℚ` (a plain decimal-literal parser; the strings
  appearing in extracted records are of this form).
-/

namespace Statcheck

/-- A Python number as found in an extracted record: its rational value and
whether it is an `int` (Python's `isinstance(·, int)`). -/
structure PyNum where
  val : ℚ
  isInt : Bool
deriving DecidableEq

/-- The value of the `reported_p_value` field of an extracted record:
a number (Python `int`/`float`) or a string such as `"ns"`. -/
inductive RVal where
  | num (q : ℚ)
  | strV (s : String)
deriving DecidableEq

/-- One extracted statistical test, as produced by `ast.literal_eval` on the
model output and consumed by the loop body of `perform_statcheck_test`
(`test.get(...)` returns `None` for absent keys, hence the `Option`s). -/
structure TestRecord where
  test_type : String
  df1 : Option PyNum := none
  df2 : Option PyNum := none
  test_value : Option ℚ := none
  operator : String := "="
  reported_p_value : Option RVal := none
  epsilon : Option ℚ := none
  tail : Option String := none
deriving DecidableEq

/-- One row of the result `DataFrame` built by `perform_statcheck_test`.
`notes` keeps the `notes_list` of the source; the DataFrame cell renders it
with `" ".join(notes_list)` (or `"-"` when empty), see `renderNotes`. -/
structure ResultRow where
  consistentStr : String
  apa : String
  reportedStr : String
  rangeStr : String
  notes : List String
deriving DecidableEq

/-- The `Notes` cell of the DataFrame: `"-" if not notes_list else " ".join(notes_list)`. -/
def renderNotes (notes : List String) : String :=
  if notes.isEmpty then "-" else String.intercalate " " notes

/-- External (library / runtime) behaviour the engine calls into:
scipy survival functions, float square root, and Python string formatting of
floats.  The engine itself never inspects these; a concrete instance is
supplied for concrete evaluations. -/
structure Py where
  /-- `scipy.stats.t.sf x df` -/
  tSF : ℚ → ℚ → ℚ
  /-- `scipy.stats.f.sf x df1 df2` -/
  fSF : ℚ → ℚ → ℚ → ℚ
  /-- `scipy.stats.chi2.sf x df` -/
  chi2SF : ℚ → ℚ → ℚ
  /-- `scipy.stats.norm.sf x` -/
  normSF : ℚ → ℚ
  /-- Python `x ** 0.5` -/
  sqrtQ : ℚ → ℚ
  /-- Python `str(x)` for a float `x` -/
  reprQ : ℚ → String
  /-- Python `str(x)` for an int-or-float `x` (degrees of freedom) -/
  reprN : PyNum → String
  /-- Python `f"{x:.2f}"` -/
  fmt2 : ℚ → String
  /-- Python `f"{x:.5f}"` -/
  fmt5 : ℚ → String
  /-- Python `round(x, 2)` -/
  round2 : ℚ → ℚ

/-- The `1e-10` guard subtracted from upper window bounds. -/
def eps10 : ℚ := 1 / 10 ^ 10

/-- Python `s.split(sep)` for a one-character separator, on the character
list of the string (structural recursion, so concrete instances evaluate in
the kernel; core `String.splitOn` agrees on these inputs). -/
def splitOnChar (sep : Char) : List Char → List (List Char)
  | [] => [[]]
  | c :: rest =>
    match splitOnChar sep rest with
    | [] => [[]]
    | grp :: gs => if c = sep then [] :: grp :: gs else (c :: grp) :: gs

/-- `StatcheckTester.get_decimal_places`: number of characters after the first
`"."` of the string (`len(value_str.split(".")[1]) if "." in value_str else 0`). -/
def get_decimal_places (value_str : String) : ℕ :=
  match splitOnChar '.' value_str.toList with
  | _ :: second :: _ => second.length
  | _ => 0

/-- Digits of a numeric literal read as a natural number. -/
def digitsToNat (l : List Char) : ℕ :=
  l.foldl (fun a c => 10 * a + (c.toNat - 48)) 0

/-- Python `float(s)` on a plain decimal string literal (surrounding
whitespace, optional sign, digits, at most one point).  Scientific notation,
`inf`/`nan` etc. are out of scope for the strings occurring in extracted
records; on anything else the result is `none`, modelling the `ValueError`
the source catches. -/
def pyFloatOfString (s : String) : Option ℚ :=
  let t := ((s.toList.dropWhile Char.isWhitespace).reverse.dropWhile
    Char.isWhitespace).reverse
  let sgn : ℚ := if t.head? = some '-' then -1 else 1
  let body := if t.head? = some '-' ∨ t.head? = some '+' then t.tail else t
  match splitOnChar '.' body with
  | [ip] =>
      if ip.length > 0 && ip.all Char.isDigit then
        some (sgn * (digitsToNat ip : ℚ))
      else none
  | [ip, fp] =>
      if (ip.length + fp.length > 0) && ip.all Char.isDigit
          && fp.all Char.isDigit then
        some (sgn * ((digitsToNat (ip ++ fp) : ℚ) / 10 ^ fp.length))
      else none
  | _ => none

/-- Python `float(reported_p_value)` where the value may already be numeric. -/
def pyFloat : RVal → Option ℚ
  | .num q => some q
  | .strV s => pyFloatOfString s

/-- Python `isinstance(df, int)` on an optional degree of freedom
(`isinstance(None, int)` is `False`). -/
def pyIsInt : Option PyNum → Bool
  | some n => n.isInt
  | none => false

/-- Python truthiness of an optional float, as used by `all(p_value_range)`:
`None` and `0.0` are falsy. -/
def pyTruthy : Option ℚ → Bool
  | none => false
  | some q => decide (q ≠ 0)

/-- `f"{v}"` on a reported value (a number prints via `str`, a string prints
as itself). -/
def reprRVal (env : Py) : RVal → String
  | .num q => env.reprQ q
  | .strV s => s

/-- `f"{df}"` on an optional degree of freedom (`None` prints as `"None"`). -/
def reprOptN (env : Py) : Option PyNum → String
  | none => "None"
  | some n => env.reprN n

/-- `StatcheckTester.compare_p_values` (pipeline.py lines 173-208).
The fall-through for an operator other than `<`, `>`, `=` returns Python
`None`; every caller only uses the result for its truthiness, so it is
modelled as `false`. -/
def compare_p_values (env : Py) (recalculated_p_value_range : ℚ × ℚ)
    (operator : String) (reported_value : ℚ) : Bool :=
  let p_value_lower := recalculated_p_value_range.1
  let p_value_upper := recalculated_p_value_range.2
  if operator = "<" then
    decide (p_value_lower < reported_value)
  else if operator = ">" then
    decide (p_value_upper > reported_value)
  else if operator = "=" then
    let s := env.reprQ reported_value
    let decimal_places : ℕ := if '.' ∈ s.toList then get_decimal_places s else 0
    let rounding_increment : ℚ := (1 / 2) * (10 : ℚ) ^ (-(decimal_places : ℤ))
    let reported_p_lower := reported_value - rounding_increment
    let reported_p_upper := reported_value + rounding_increment - eps10
    decide (reported_p_upper ≥ p_value_lower ∧ reported_p_lower ≤ p_value_upper)
  else
    false

/-- Range normalisation and the `ns` / numeric-conversion / comparison
epilogue of `StatcheckTester.calculate_p_value` (pipeline.py lines 142-161). -/
def epilogueCore (env : Py) (operator : String) (reported_p_value : RVal)
    (pl pu : ℚ) : Bool × (Option ℚ × Option ℚ) :=
  -- Ensure p_lower is the smaller p-value
  let p_value_lower := min pl pu
  let p_value_upper := max pl pu
  -- Handle reported_p_value being 'ns'
  if reported_p_value = RVal.strV "ns" then
    (false, (some p_value_lower, some p_value_upper))
  else
    -- Convert reported_p_value to numeric if possible
    match pyFloat reported_p_value with
    | none => (false, (none, none))
    | some rv =>
        (compare_p_values env (p_value_lower, p_value_upper) operator rv,
         (some p_value_lower, some p_value_upper))

/-- Tail adjustment (pipeline.py lines 133-140) followed by the epilogue,
shared by all five family branches of `calculate_p_value`. -/
def rangeEpilogue (env : Py) (test_type operator : String)
    (reported_p_value : RVal) (tail : Option String) (p_lower p_upper : ℚ) :
    Bool × (Option ℚ × Option ℚ) :=
  -- Adjust for one-tailed or two-tailed tests where applicable (not for chi2 and f)
  if test_type ∉ (["chi2", "f"] : List String) then
    if tail = some "two" then
      -- For two-tailed tests, double the one-tailed p-value
      epilogueCore env operator reported_p_value (min (p_lower * 2) 1) (min (p_upper * 2) 1)
    else if tail = some "one" then
      epilogueCore env operator reported_p_value p_lower p_upper
    else
      -- `elif tail != "one": return False, (None, None)`
      (false, (none, none))
  else
    epilogueCore env operator reported_p_value p_lower p_upper

/-- `StatcheckTester.calculate_p_value` (pipeline.py lines 52-161).
`tail` is an `Option` because the pipeline passes `test.get("tail")`, which is
Python `None` when the key is absent; the signature default `"two"` would only
apply to a call omitting the argument, which no caller does. -/
def calculate_p_value (env : Py) (test_type : String) (df1 df2 : Option PyNum)
    (test_value : ℚ) (operator : String) (reported_p_value : RVal)
    (epsilon : Option ℚ) (tail : Option String) :
    Bool × (Option ℚ × Option ℚ) :=
  if (test_type ∈ (["t", "r", "chi2"] : List String) ∧ df1 = none)
      ∨ (test_type = "f" ∧ (df1 = none ∨ df2 = none)) then
    (false, (none, none))
  else
    let decimal_places : ℕ := max (get_decimal_places (env.reprQ test_value)) 2
    let rounding_increment : ℚ := (1 / 2) * (10 : ℚ) ^ (-(decimal_places : ℤ))
    let lower_test_value := test_value - rounding_increment
    let upper_test_value := test_value + rounding_increment - eps10
    -- the guard above ensures the degrees of freedom are present in every
    -- branch that reads them; the default is never used
    let d1 := (df1.getD ⟨0, false⟩).val
    let d2 := (df2.getD ⟨0, false⟩).val
    if test_type = "r" then
      let t_lower := lower_test_value * env.sqrtQ d1 / env.sqrtQ (1 - lower_test_value ^ 2)
      let t_upper := upper_test_value * env.sqrtQ d1 / env.sqrtQ (1 - upper_test_value ^ 2)
      rangeEpilogue env test_type operator reported_p_value tail
        (env.tSF |t_lower| d1) (env.tSF |t_upper| d1)
    else if test_type = "t" then
      rangeEpilogue env test_type operator reported_p_value tail
        (env.tSF |lower_test_value| d1) (env.tSF |upper_test_value| d1)
    else if test_type = "f" then
      if epsilon.isSome && pyIsInt df1 && pyIsInt df2 then
        let e := epsilon.getD 0
        rangeEpilogue env test_type operator reported_p_value tail
          (env.fSF lower_test_value (e * d1) (e * d2))
          (env.fSF upper_test_value (e * d1) (e * d2))
      else
        rangeEpilogue env test_type operator reported_p_value tail
          (env.fSF lower_test_value d1 d2) (env.fSF upper_test_value d1 d2)
    else if test_type = "chi2" then
      rangeEpilogue env test_type operator reported_p_value tail
        (env.chi2SF lower_test_value d1) (env.chi2SF upper_test_value d1)
    else if test_type = "z" then
      rangeEpilogue env test_type operator reported_p_value tail
        (env.normSF |lower_test_value|) (env.normSF |upper_test_value|)
    else
      (false, (none, none))

/-- `StatcheckTester.determine_reported_significance` (pipeline.py lines 210-235). -/
def determine_reported_significance (operator : String)
    (reported_p_value : RVal) (significance_level : ℚ) : Option Bool :=
  if reported_p_value = RVal.strV "ns" then
    none
  else
    match pyFloat reported_p_value with
    | none => none
    | some q =>
        if operator = "=" ∨ operator = "<" then
          some (decide (q ≤ significance_level))
        else if operator = ">" then
          some (decide (q < significance_level))
        else
          none

/-- `StatcheckTester.determine_recalculated_significance` (pipeline.py lines 237-255). -/
def determine_recalculated_significance (lower upper significance_level : ℚ) :
    Option Bool :=
  if upper < significance_level then some true
  else if lower > significance_level then some false
  else none

/-- The general path of the per-test loop of
`StatcheckTester.perform_statcheck_test` (pipeline.py lines 434-512): the row
built for a record that is not skipped, not `"ns"`, and not an
r-test-without-df1. -/
def evalComputedRow (env : Py) (significance_level : ℚ) (test : TestRecord)
    (reported_p_value : RVal) (test_value : ℚ) : ResultRow :=
  let test_type := test.test_type
  let df1 := test.df1
  let df2 := test.df2
  let operator := test.operator
  let tail := test.tail
  -- ------------------ Calculate p-value range ------------------
  let res := calculate_p_value env test_type df1 df2 test_value operator
    reported_p_value
    (if test_type = "f" ∧ test.epsilon ≠ none ∧ pyIsInt df1 ∧ pyIsInt df2 then
      test.epsilon
    else none)
    tail
  let consistent0 := res.1
  let p_value_range := res.2
  let valid_p_value_range_str :=
    if pyTruthy p_value_range.1 && pyTruthy p_value_range.2 then
      env.fmt5 (p_value_range.1.getD 0) ++ " to " ++ env.fmt5 (p_value_range.2.getD 0)
    else "N/A"
  -- ------------------ Determine significance ------------------
  let reported_significant :=
    determine_reported_significance operator reported_p_value significance_level
  let recalculated_significant :=
    match p_value_range with
    | (some l, some u) => determine_recalculated_significance l u significance_level
    | _ => none
  -- ------------------ Check consistency ------------------
  let gross_inconsistency :=
    reported_significant ≠ none ∧ recalculated_significant ≠ none
      ∧ reported_significant ≠ recalculated_significant
  -- `consistent_str` is fixed here, BEFORE the exact-zero override below
  let consistent_str := if consistent0 then "Yes" else "No"
  let zeroHit := reported_p_value = RVal.num 0
  let notes1 : List String :=
    if zeroHit then ["A p-value is never exactly 0."] else []
  let consistent1 := if zeroHit then false else consistent0
  let fMissing := p_value_range.1 = none ∧ test_type = "f" ∧ df2 = none
  let consistent_str2 := if fMissing then "Cannot determine" else consistent_str
  let notes2 := notes1 ++
    (if fMissing then ["F-test requires two DF. Only one DF provided."]
     else if consistent1 = false then
       (if gross_inconsistency then
          ["Gross inconsistency: reported p-value and recalculated p-value differ in significance."]
        else
          ["Recalculated p-value does not match the reported p-value."])
     else [])
  -- ------------------ One-tailed edge case ------------------
  let notes3 := notes2 ++
    (if test_type ∈ (["t", "z", "r"] : List String) ∧ consistent1 = false
        ∧ tail = some "two" then
       (if (calculate_p_value env test_type df1 df2 test_value operator
              reported_p_value none (some "one")).1 then
          ["Consistent for one-tailed, inconsistent for two-tailed."]
        else [])
     else [])
  -- ------------------ Format APA Reporting ------------------
  -- the Huynh-Feldt note of the source's first formatting branch is appended
  -- exactly when that branch is taken, so apa string and note are split here
  let hfApplied := test_type = "f" ∧ test.epsilon ≠ none ∧ pyIsInt df1 ∧ pyIsInt df2
  let apa_reporting :=
    if hfApplied then
      let e := test.epsilon.getD 0
      let corrected_df1 := env.round2 (e * (df1.getD ⟨0, false⟩).val)
      let corrected_df2 := env.round2 (e * (df2.getD ⟨0, false⟩).val)
      test_type ++ "(" ++ env.reprQ corrected_df1 ++ ", " ++ env.reprQ corrected_df2
        ++ ") = " ++ env.fmt2 test_value
    else if df1 ≠ none then
      test_type ++ "(" ++ reprOptN env df1
        ++ (if df2 ≠ none then ", " ++ reprOptN env df2 else "")
        ++ ") = " ++ env.fmt2 test_value
    else
      test_type ++ " = " ++ env.fmt2 test_value
  let notes4 := notes3 ++
    (if hfApplied then
      ["Degrees of freedom were adjusted due to a Huynh-Feldt correction. Epsilon = "
        ++ env.reprQ (test.epsilon.getD 0) ++ "."]
    else [])
  -- ------------------ Append result ------------------
  { consistentStr := consistent_str2,
    apa := apa_reporting,
    reportedStr :=
      if reported_p_value ≠ RVal.strV "ns" then
        operator ++ " " ++ reprRVal env reported_p_value
      else "ns",
    rangeStr := valid_p_value_range_str,
    notes := notes4 }

/-- The body of the per-test loop of `StatcheckTester.perform_statcheck_test`
(pipeline.py lines 385-512): evaluates one extracted record into one result
row; `none` when the record is skipped (missing `reported_p_value` or
`test_value`). -/
def evalRecord (env : Py) (significance_level : ℚ) (test : TestRecord) :
    Option ResultRow :=
  let test_type := test.test_type
  let df1 := test.df1
  let df2 := test.df2
  let operator := test.operator
  match test.reported_p_value, test.test_value with
  | none, _ => none
  | some _, none => none
  | some reported_p_value, some test_value =>
    if reported_p_value = RVal.strV "ns" then
      -- ---------------------- Handle "ns" case ----------------------
      some { consistentStr := "Cannot determine",
             apa := test_type ++ "(" ++ reprOptN env df1
               ++ (if df2 ≠ none then ", " ++ reprOptN env df2 else "")
               ++ ") = " ++ env.reprQ test_value ++ ", ns",
             reportedStr := "ns",
             rangeStr := "N/A",
             notes := ["Reported as ns."] }
    else if test_type = "r" ∧ df1 = none then
      -- ---------------------- Validate DF requirements ----------------------
      some { consistentStr := "Cannot determine",
             apa := test_type ++ " = " ++ env.fmt2 test_value,
             reportedStr :=
               if reported_p_value ≠ RVal.strV "ns" then
                 operator ++ " " ++ reprRVal env reported_p_value
               else "ns",
             rangeStr := "N/A",
             notes := ["Correlation test requires degrees of freedom (df1). None provided."] }
    else
      some (evalComputedRow env significance_level test reported_p_value test_value)

/-!
A concrete environment for closed evaluations.  Its survival-function and
formatting fields agree with scipy / CPython on the inputs the concrete
records below feed them (e.g. `scipy.stats.t.sf(2.095, 25) ≈ 0.02297`,
`scipy.stats.t.sf(2.105, 25) ≈ 0.02291`, `str(2.1) = "2.1"`); elsewhere they
take harmless defaults, which no concrete theorem depends on.
-/

/-- Demo environment (values matching the external libraries at the probed inputs). -/
def pyDemo : Py where
  tSF := fun x _ => if x < 21 / 10 then 2297 / 100000 else 2291 / 100000
  fSF := fun _ _ _ => 1 / 500
  chi2SF := fun x _ => if x < 8012 / 100 then 9 / 10 else 89 / 100
  normSF := fun x => if x ≥ 8 then 0 else 1 / 100
  sqrtQ := fun _ => 1
  reprQ := fun q =>
    if q = 21 / 10 then "2.1"
    else if q = 1 / 20 then "0.05"
    else if q = 1 / 10 then "0.1"
    else if q = 1 / 50 then "0.02"
    else if q = 0 then "0.0"
    else if q = 8 then "8.0"
    else if q = 1 / 1000 then "0.001"
    else "0.0"
  reprN := fun n => if n.val = 25 then "25" else "97"
  fmt2 := fun q => if q = 21 / 10 then "2.10" else "8.00"
  fmt5 := fun q =>
    if q = 2291 / 50000 then "0.04582"
    else if q = 2297 / 50000 then "0.04594"
    else "0.00000"
  round2 := fun q => q

/-- Modelled from the spec (sections 4.1 and 4.5): the `=` comparison as the
spec words it — the decimal count of the reported value floored at minimum 2,
tolerance `0.5 * 10 ^ (-d)`, window `[value - tol, value + tol - 1e-10]`,
consistent iff the window overlaps the recomputed range. -/
def compareEqSpecFloored (env : Py) (recalculated : ℚ × ℚ) (reported_value : ℚ) : Bool :=
  let s := env.reprQ reported_value
  let d : ℕ := max (if '.' ∈ s.toList then get_decimal_places s else 0) 2
  let tol : ℚ := (1 / 2) * (10 : ℚ) ^ (-(d : ℤ))
  decide (reported_value - tol ≤ recalculated.2 ∧
    recalculated.1 ≤ reported_value + tol - eps10)

/-- The same spec-worded overlap comparison but with the raw decimal count
(no minimum-2 floor). -/
def compareEqSpecRaw (env : Py) (recalculated : ℚ × ℚ) (reported_value : ℚ) : Bool :=
  let s := env.reprQ reported_value
  let d : ℕ := if '.' ∈ s.toList then get_decimal_places s else 0
  let tol : ℚ := (1 / 2) * (10 : ℚ) ^ (-(d : ℤ))
  decide (reported_value - tol ≤ recalculated.2 ∧
    recalculated.1 ≤ reported_value + tol - eps10)

/-- The contract of scipy's survival functions: a survival probability lies
in `[0, 1]`. -/
def SFBounded (env : Py) : Prop :=
  (∀ x d, 0 ≤ env.tSF x d ∧ env.tSF x d ≤ 1) ∧
  (∀ x d1 d2, 0 ≤ env.fSF x d1 d2 ∧ env.fSF x d1 d2 ≤ 1) ∧
  (∀ x d, 0 ≤ env.chi2SF x d ∧ env.chi2SF x d ≤ 1) ∧
  (∀ x, 0 ≤ env.normSF x ∧ env.normSF x ≤ 1)

/-!
Staged evaluation lemmas: `calculate_p_value` rewritten one phase at a time,
so that concrete runs can be computed by small rewrite steps.
-/

/-- The t-branch of `calculate_p_value` (guard passed, family selected). -/
theorem calc_t (env : Py) (d : PyNum) (df2 : Option PyNum) (tv : ℚ) (op : String)
    (rep : RVal) (eps : Option ℚ) (tail : Option String) :
    calculate_p_value env "t" (some d) df2 tv op rep eps tail =
      rangeEpilogue env "t" op rep tail
        (env.tSF |tv - (1 / 2) * (10 : ℚ) ^ (-(max (get_decimal_places (env.reprQ tv)) 2 : ℤ))| d.val)
        (env.tSF |tv + (1 / 2) * (10 : ℚ) ^ (-(max (get_decimal_places (env.reprQ tv)) 2 : ℤ)) - eps10| d.val) := by
  simp [calculate_p_value]

/-- The z-branch of `calculate_p_value` (no degrees of freedom needed). -/
theorem calc_z (env : Py) (df1 df2 : Option PyNum) (tv : ℚ) (op : String)
    (rep : RVal) (eps : Option ℚ) (tail : Option String) :
    calculate_p_value env "z" df1 df2 tv op rep eps tail =
      rangeEpilogue env "z" op rep tail
        (env.normSF |tv - (1 / 2) * (10 : ℚ) ^ (-(max (get_decimal_places (env.reprQ tv)) 2 : ℤ))|)
        (env.normSF |tv + (1 / 2) * (10 : ℚ) ^ (-(max (get_decimal_places (env.reprQ tv)) 2 : ℤ)) - eps10|) := by
  simp [calculate_p_value]

/-- Two-tailed adjustment for a family outside `{chi2, f}`. -/
theorem epi_two (env : Py) (ttype op : String) (rep : RVal) (p1 p2 : ℚ)
    (h : ttype ∉ (["chi2", "f"] : List String)) :
    rangeEpilogue env ttype op rep (some "two") p1 p2 =
      epilogueCore env op rep (min (p1 * 2) 1) (min (p2 * 2) 1) := by
  simp [rangeEpilogue, h]

/-- One-tailed pass-through for a family outside `{chi2, f}`. -/
theorem epi_one (env : Py) (ttype op : String) (rep : RVal) (p1 p2 : ℚ)
    (h : ttype ∉ (["chi2", "f"] : List String)) :
    rangeEpilogue env ttype op rep (some "one") p1 p2 =
      epilogueCore env op rep p1 p2 := by
  simp [rangeEpilogue, h]

/-- An absent tail (Python `None`) fails the tail check for a family outside
`{chi2, f}`: the evaluator returns the uncomputable sentinel. -/
theorem epi_missing_tail (env : Py) (ttype op : String) (rep : RVal) (p1 p2 : ℚ)
    (h : ttype ∉ (["chi2", "f"] : List String)) :
    rangeEpilogue env ttype op rep none p1 p2 = (false, (none, none)) := by
  simp [rangeEpilogue, h]

/-- Epilogue for a numeric reported value: compare and return the ordered range. -/
theorem core_num (env : Py) (op : String) (q : ℚ) (p1 p2 : ℚ) :
    epilogueCore env op (RVal.num q) p1 p2 =
      (compare_p_values env (min p1 p2, max p1 p2) op q,
       (some (min p1 p2), some (max p1 p2))) := by
  simp [epilogueCore, pyFloat]

/-- Epilogue for a reported `"ns"`: inconsistent flag, range still returned. -/
theorem core_ns (env : Py) (op : String) (p1 p2 : ℚ) :
    epilogueCore env op (RVal.strV "ns") p1 p2 =
      (false, (some (min p1 p2), some (max p1 p2))) := by
  simp [epilogueCore]

/-- The `<` comparison: consistent iff the recomputed lower bound is below
the reported value. -/
theorem cmp_lt (env : Py) (l u q : ℚ) :
    compare_p_values env (l, u) "<" q = decide (l < q) := by
  simp [compare_p_values]

/-- The `>` comparison: consistent iff the recomputed upper bound is above
the reported value. -/
theorem cmp_gt (env : Py) (l u q : ℚ) :
    compare_p_values env (l, u) ">" q = decide (u > q) := by
  simp [compare_p_values]

/-- The `=` comparison spelt out: overlap of the reported-value window (raw
decimal count of `str(reported)`, `1e-10` guard) with the recomputed range. -/
theorem cmp_eq (env : Py) (l u q : ℚ) :
    compare_p_values env (l, u) "=" q =
      decide (q + (1 / 2) * (10 : ℚ) ^
          (-((if '.' ∈ (env.reprQ q).toList then get_decimal_places (env.reprQ q) else 0 : ℕ) : ℤ)) - eps10 ≥ l ∧
        q - (1 / 2) * (10 : ℚ) ^
          (-((if '.' ∈ (env.reprQ q).toList then get_decimal_places (env.reprQ q) else 0 : ℕ) : ℤ)) ≤ u) := by
  simp [compare_p_values]

/-- Records that are not skipped, not `"ns"` and not r-without-df1 go through
the general computed-row path. -/
theorem evalRecord_computed (env : Py) (α : ℚ) (test : TestRecord) (rv : RVal) (tv : ℚ)
    (hrep : test.reported_p_value = some rv) (htv : test.test_value = some tv)
    (hns : rv ≠ RVal.strV "ns") (hdf : ¬(test.test_type = "r" ∧ test.df1 = none)) :
    evalRecord env α test = some (evalComputedRow env α test rv tv) := by
  simp [evalRecord, hrep, htv, hns, hdf]

/-!
Concrete facts about `pyDemo` and the literal strings its `reprQ` returns,
used by the closed evaluations below.
-/

theorem reprQ_21over10 : pyDemo.reprQ (21 / 10) = "2.1" := by norm_num [pyDemo]

theorem reprQ_1over20 : pyDemo.reprQ (1 / 20) = "0.05" := by norm_num [pyDemo]

theorem reprQ_1over10 : pyDemo.reprQ (1 / 10) = "0.1" := by norm_num [pyDemo]

theorem reprQ_1over50 : pyDemo.reprQ (1 / 50) = "0.02" := by norm_num [pyDemo]

theorem reprQ_0 : pyDemo.reprQ 0 = "0.0" := by norm_num [pyDemo]

theorem reprQ_8 : pyDemo.reprQ 8 = "8.0" := by norm_num [pyDemo]

theorem gdp_21 : get_decimal_places "2.1" = 1 := by decide

theorem gdp_005 : get_decimal_places "0.05" = 2 := by decide

theorem gdp_002 : get_decimal_places "0.02" = 2 := by decide

theorem gdp_00 : get_decimal_places "0.0" = 1 := by decide

theorem gdp_01 : get_decimal_places "0.1" = 1 := by decide

theorem fmt5_low : pyDemo.fmt5 (2291 / 50000) = "0.04582" := by norm_num [pyDemo]

theorem fmt5_high : pyDemo.fmt5 (2297 / 50000) = "0.04594" := by norm_num [pyDemo]

theorem max_one_two : (max 1 2 : ℕ) = 2 := by decide

theorem gdp_80 : get_decimal_places "8.0" = 1 := by decide

theorem eqdp_005 : (if '.' ∈ "0.05".toList then get_decimal_places "0.05" else 0) = 2 := by
  decide

theorem eqdp_002 : (if '.' ∈ "0.02".toList then get_decimal_places "0.02" else 0) = 2 := by
  decide

theorem eqdp_01 : (if '.' ∈ "0.1".toList then get_decimal_places "0.1" else 0) = 1 := by
  decide

theorem tSF_demo (x d : ℚ) :
    pyDemo.tSF x d = if x < 21 / 10 then 2297 / 100000 else 2291 / 100000 := rfl

theorem normSF_demo (x : ℚ) :
    pyDemo.normSF x = if x ≥ 8 then 0 else 1 / 100 := rfl

/-!
Claim C2.
-/

/-- C2 (counterexample part): for a concrete record reported as `"ns"` with a
present test value, the emitted row's verdict is CannotDetermine but its range
display is `"N/A"` — the recomputed range is NOT reported in the row, even
though the evaluator, invoked on the same inputs, does return a computed
range. -/
theorem c2_ns_range_not_in_row :
    (evalRecord pyDemo (1 / 20)
        { test_type := "t", df1 := some ⟨25, true⟩, test_value := some (21 / 10),
          operator := "=", reported_p_value := some (RVal.strV "ns"),
          tail := some "two" }).map
      (fun r => (r.consistentStr, r.rangeStr, r.notes)) =
      some ("Cannot determine", "N/A", ["Reported as ns."]) ∧
    calculate_p_value pyDemo "t" (some ⟨25, true⟩) none (21 / 10) "="
        (RVal.strV "ns") none (some "two") =
      (false, (some (2291 / 50000), some (2297 / 50000))) := by
  constructor
  · simp [evalRecord]
  · rw [calc_t, epi_two _ _ _ _ _ _ (by decide), core_ns]
    rw [reprQ_21over10, gdp_21]
    norm_num [tSF_demo, eps10, abs_of_nonneg]

/-- C2 (amended): for every record whose reported p-value is the string
`"ns"` (test value present), the emitted row has verdict CannotDetermine,
range display `"N/A"` and the single note `"Reported as ns."`; the pipeline
emits this row without invoking the evaluator (only a direct call of
`calculate_p_value` would still return the recomputed range, as shown in the
counterexample). -/
theorem c2_ns_row_verdict (env : Py) (α : ℚ) (test : TestRecord) (tv : ℚ)
    (hrep : test.reported_p_value = some (RVal.strV "ns"))
    (htv : test.test_value = some tv) :
    ∃ row, evalRecord env α test = some row ∧
      row.consistentStr = "Cannot determine" ∧ row.rangeStr = "N/A" ∧
      row.notes = ["Reported as ns."] := by
  have h : evalRecord env α test = some
      { consistentStr := "Cannot determine",
        apa := test.test_type ++ "(" ++ reprOptN env test.df1
          ++ (if test.df2 ≠ none then ", " ++ reprOptN env test.df2 else "")
          ++ ") = " ++ env.reprQ tv ++ ", ns",
        reportedStr := "ns", rangeStr := "N/A",
        notes := ["Reported as ns."] } := by
    simp [evalRecord, hrep, htv]
  exact ⟨_, h, rfl, rfl, rfl⟩

/-- C2 witness: the amended claim instantiated at a concrete chi2 record. -/
theorem c2_ns_row_verdict_witness :
    ∃ row, evalRecord pyDemo (1 / 20)
        { test_type := "chi2", df1 := some ⟨97, true⟩, test_value := some (8012 / 100),
          operator := "=", reported_p_value := some (RVal.strV "ns") } = some row ∧
      row.consistentStr = "Cannot determine" ∧ row.rangeStr = "N/A" ∧
      row.notes = ["Reported as ns."] :=
  c2_ns_row_verdict pyDemo (1 / 20) _ (8012 / 100) rfl rfl

/-!
Claim C3.
-/

/-- C3: for an unknown test type, or a missing required degree of freedom
(df1 for r/t/chi2/f, df2 for f), the evaluator returns normally (the embedded
function is total, mirroring the early returns of the source) with the
uncomputable outcome: consistency `false` (No) and range `(None, None)`. -/
theorem c3_uncomputable_outcome (env : Py) (test_type : String)
    (df1 df2 : Option PyNum) (tv : ℚ) (op : String) (rep : RVal)
    (eps : Option ℚ) (tail : Option String)
    (h : test_type ∉ (["r", "t", "f", "chi2", "z"] : List String)
        ∨ (test_type ∈ (["t", "r", "chi2"] : List String) ∧ df1 = none)
        ∨ (test_type = "f" ∧ (df1 = none ∨ df2 = none))) :
    calculate_p_value env test_type df1 df2 tv op rep eps tail =
      (false, (none, none)) := by
  rcases h with h | h | h
  · simp only [calculate_p_value]
    split_ifs with h1 h2 h3 h4 h5 h6 h7 <;> simp_all
  · unfold calculate_p_value
    rw [if_pos (Or.inl h)]
  · unfold calculate_p_value
    rw [if_pos (Or.inr h)]

/-- C3 witness: a t-test with df1 absent yields the uncomputable outcome. -/
theorem c3_uncomputable_outcome_witness :
    calculate_p_value pyDemo "t" none none 0 "=" (RVal.num 0) none none =
      (false, (none, none)) :=
  c3_uncomputable_outcome pyDemo "t" none none 0 "=" (RVal.num 0) none none
    (Or.inr (Or.inl ⟨by decide, rfl⟩))

/-!
Claim C4.
-/

/-- C4 (counterexample part): at reported value `0.1` (one decimal digit in
`str`) and recomputed range `[0.06, 0.07]`, the source comparator answers
`true` while the spec's floored-at-2 window comparator answers `false`: the
`=` comparison does not floor the decimal count at 2. -/
theorem c4_eq_window_not_floored :
    compare_p_values pyDemo (3 / 50, 7 / 100) "=" (1 / 10) = true ∧
    compareEqSpecFloored pyDemo (3 / 50, 7 / 100) (1 / 10) = false := by
  constructor
  · rw [cmp_eq, reprQ_1over10]
    norm_num [eqdp_01, gdp_01, eps10]
  · unfold compareEqSpecFloored
    rw [reprQ_1over10]
    norm_num [eqdp_01, gdp_01, max_one_two, eps10]

/-- C4 (amended): the `=` comparison builds its tolerance window from the RAW
decimal count of `str(reported_value)` — no minimum-2 floor (the floor
`max(d, 2)` applies only to the test-statistic window in
`calculate_p_value`) — so its width is `10^(-d) - 1e-10` for every `d ≥ 0`. -/
theorem c4_eq_window_raw_decimals (env : Py) (l u q : ℚ) :
    compare_p_values env (l, u) "=" q = compareEqSpecRaw env (l, u) q := by
  rw [cmp_eq]
  unfold compareEqSpecRaw
  exact decide_eq_decide.mpr ⟨fun ⟨a, b⟩ => ⟨b, a⟩, fun ⟨a, b⟩ => ⟨b, a⟩⟩

/-!
Claim C7.
-/

/-- C7: the significance classifier at threshold `α`: reported significance
is `reported ≤ α` for operators `=` and `<`, `reported < α` for `>`, and
indeterminate (`none`) for `"ns"` or an unparseable reported value;
recalculated significance is significant iff `upper < α`, not significant iff
`lower > α`, indeterminate otherwise. -/
theorem c7_significance_classifier (α : ℚ) :
    (∀ op, determine_reported_significance op (RVal.strV "ns") α = none) ∧
    (∀ op r, pyFloat r = none → determine_reported_significance op r α = none) ∧
    (∀ r q, pyFloat r = some q →
      determine_reported_significance "=" r α = some (decide (q ≤ α)) ∧
      determine_reported_significance "<" r α = some (decide (q ≤ α)) ∧
      determine_reported_significance ">" r α = some (decide (q < α))) ∧
    (∀ l u, l ≤ u →
      (determine_recalculated_significance l u α = some true ↔ u < α) ∧
      (determine_recalculated_significance l u α = some false ↔ l > α) ∧
      (determine_recalculated_significance l u α = none ↔ l ≤ α ∧ α ≤ u)) := by
  refine ⟨?_, ?_, ?_, ?_⟩
  · intro op
    simp [determine_reported_significance]
  · intro op r h
    by_cases hr : r = RVal.strV "ns"
    · simp [determine_reported_significance, hr]
    · simp [determine_reported_significance, hr, h]
  · intro r q h
    have hr : r ≠ RVal.strV "ns" := by
      intro hr
      subst hr
      simp [pyFloat, (by decide : pyFloatOfString "ns" = none)] at h
    refine ⟨?_, ?_, ?_⟩ <;> simp [determine_reported_significance, hr, h]
  · intro l u hlu
    unfold determine_recalculated_significance
    split_ifs with h1 h2
    · exact ⟨iff_of_true rfl h1,
        iff_of_false (by simp) (by linarith),
        iff_of_false (by simp) (fun hc => absurd hc.2 (not_le.mpr h1))⟩
    · exact ⟨iff_of_false (by simp) h1,
        iff_of_true rfl h2,
        iff_of_false (by simp) (fun hc => absurd hc.1 (not_le.mpr h2))⟩
    · exact ⟨iff_of_false (by simp) h1,
        iff_of_false (by simp) h2,
        iff_of_true rfl ⟨not_lt.mp h2, not_lt.mp h1⟩⟩

/-- C7 witness: the classifier applied at concrete inputs (a parseable
reported value under `=`, and a fully significant recomputed range). -/
theorem c7_significance_classifier_witness :
    determine_reported_significance "=" (RVal.num (3 / 100)) (1 / 20) = some true ∧
    determine_recalculated_significance (1 / 100) (2 / 100) (1 / 20) = some true := by
  have h := c7_significance_classifier (1 / 20)
  constructor
  · have h3 := (h.2.2.1 (RVal.num (3 / 100)) (3 / 100) rfl).1
    rw [h3]
    norm_num
  · exact (h.2.2.2 (1 / 100) (2 / 100) (by norm_num)).1.mpr (by norm_num)

/-!
Claim C9.
-/

/-- Shape of the epilogue's range for bounded inputs: either the sentinel or
an ordered pair inside `[0, 1]`. -/
theorem epilogueCore_shape (env : Py) (op : String) (rep : RVal) (pl pu : ℚ)
    (h1 : 0 ≤ pl ∧ pl ≤ 1) (h2 : 0 ≤ pu ∧ pu ≤ 1) :
    (epilogueCore env op rep pl pu).2 = (none, none) ∨
    ∃ l u, (epilogueCore env op rep pl pu).2 = (some l, some u) ∧
      0 ≤ l ∧ l ≤ u ∧ u ≤ 1 := by
  have hb : 0 ≤ min pl pu ∧ min pl pu ≤ max pl pu ∧ max pl pu ≤ 1 :=
    ⟨le_min h1.1 h2.1, min_le_max, max_le h1.2 h2.2⟩
  simp only [epilogueCore]
  split_ifs with hns
  · exact Or.inr ⟨_, _, rfl, hb.1, hb.2.1, hb.2.2⟩
  · rcases hpf : pyFloat rep with _ | rv
    · exact Or.inl rfl
    · exact Or.inr ⟨_, _, rfl, hb.1, hb.2.1, hb.2.2⟩

/-- Shape of the tail-adjusted range for bounded inputs. -/
theorem rangeEpilogue_shape (env : Py) (ttype op : String) (rep : RVal)
    (tail : Option String) (p1 p2 : ℚ)
    (h1 : 0 ≤ p1 ∧ p1 ≤ 1) (h2 : 0 ≤ p2 ∧ p2 ≤ 1) :
    (rangeEpilogue env ttype op rep tail p1 p2).2 = (none, none) ∨
    ∃ l u, (rangeEpilogue env ttype op rep tail p1 p2).2 = (some l, some u) ∧
      0 ≤ l ∧ l ≤ u ∧ u ≤ 1 := by
  have d1 : 0 ≤ min (p1 * 2) 1 ∧ min (p1 * 2) 1 ≤ 1 :=
    ⟨le_min (by linarith [h1.1]) zero_le_one, min_le_right _ _⟩
  have d2 : 0 ≤ min (p2 * 2) 1 ∧ min (p2 * 2) 1 ≤ 1 :=
    ⟨le_min (by linarith [h2.1]) zero_le_one, min_le_right _ _⟩
  unfold rangeEpilogue
  split_ifs with ha hb hc
  · exact epilogueCore_shape env op rep _ _ h1 h2
  · exact epilogueCore_shape env op rep _ _ d1 d2
  · exact epilogueCore_shape env op rep _ _ h1 h2
  · exact Or.inl rfl

/-- C9: whenever the survival functions return probabilities (scipy's
contract), `calculate_p_value` returns either the uncomputable sentinel
`(None, None)` or a computed range `(lower, upper)` with
`0 ≤ lower ≤ upper ≤ 1` — in particular `lower ≤ upper` for every test
family and every tail setting. -/
theorem c9_range_invariant (env : Py) (h : SFBounded env) (test_type : String)
    (df1 df2 : Option PyNum) (tv : ℚ) (op : String) (rep : RVal)
    (eps : Option ℚ) (tail : Option String) :
    (calculate_p_value env test_type df1 df2 tv op rep eps tail).2 = (none, none) ∨
    ∃ l u, (calculate_p_value env test_type df1 df2 tv op rep eps tail).2 =
        (some l, some u) ∧ 0 ≤ l ∧ l ≤ u ∧ u ≤ 1 := by
  obtain ⟨ht, hf, hchi, hnz⟩ := h
  simp only [calculate_p_value]
  split_ifs with h1 h2 h3 h4 h5 h6 h7
  · exact Or.inl rfl
  · exact rangeEpilogue_shape env _ op rep tail _ _ (ht _ _) (ht _ _)
  · exact rangeEpilogue_shape env _ op rep tail _ _ (ht _ _) (ht _ _)
  · exact rangeEpilogue_shape env _ op rep tail _ _ (hf _ _ _) (hf _ _ _)
  · exact rangeEpilogue_shape env _ op rep tail _ _ (hf _ _ _) (hf _ _ _)
  · exact rangeEpilogue_shape env _ op rep tail _ _ (hchi _ _) (hchi _ _)
  · exact rangeEpilogue_shape env _ op rep tail _ _ (hnz _) (hnz _)
  · exact Or.inl rfl

/-- The demo environment satisfies the survival-function contract. -/
theorem pyDemoBounded : SFBounded pyDemo := by
  refine ⟨fun x d => ?_, fun x d1 d2 => ?_, fun x d => ?_, fun x => ?_⟩ <;>
    simp only [pyDemo] <;> first
      | (split_ifs <;> norm_num)
      | norm_num

/-- C9 witness: the invariant instantiated at a concrete t-test run. -/
theorem c9_range_invariant_witness :
    (calculate_p_value pyDemo "t" (some ⟨25, true⟩) none (21 / 10) "="
        (RVal.num (1 / 20)) none (some "two")).2 = (none, none) ∨
    ∃ l u, (calculate_p_value pyDemo "t" (some ⟨25, true⟩) none (21 / 10) "="
        (RVal.num (1 / 20)) none (some "two")).2 = (some l, some u) ∧
      0 ≤ l ∧ l ≤ u ∧ u ≤ 1 :=
  c9_range_invariant pyDemo pyDemoBounded "t" (some ⟨25, true⟩) none (21 / 10)
    "=" (RVal.num (1 / 20)) none (some "two")

/-!
Claim C1.
-/

/-- C1 (code bug): with operator `>` and reported p-value exactly 0, the
comparator finds the range consistent (`upper > 0`), `consistent_str` is
computed from that BEFORE the exact-zero override sets `consistent = False`,
so the emitted row's verdict is "Yes" — not the always-"No" the spec states —
while the exact-zero note (and, downstream of the overridden flag, the
mismatch and one-tailed notes) are appended. -/
theorem c1_exact_zero_override_bug :
    ∃ row, evalRecord pyDemo (1 / 20)
        { test_type := "t", df1 := some ⟨25, true⟩, test_value := some (21 / 10),
          operator := ">", reported_p_value := some (RVal.num 0),
          tail := some "two" } = some row ∧
      row.consistentStr = "Yes" ∧
      row.notes = ["A p-value is never exactly 0.",
        "Recalculated p-value does not match the reported p-value.",
        "Consistent for one-tailed, inconsistent for two-tailed."] := by
  have htwo : calculate_p_value pyDemo "t" (some ⟨25, true⟩) none (21 / 10) ">"
      (RVal.num 0) none (some "two") =
      (true, (some (2291 / 50000), some (2297 / 50000))) := by
    rw [calc_t, epi_two _ _ _ _ _ _ (by decide), core_num, cmp_gt]
    rw [reprQ_21over10, gdp_21]
    norm_num [tSF_demo, eps10, abs_of_nonneg]
  have hone : calculate_p_value pyDemo "t" (some ⟨25, true⟩) none (21 / 10) ">"
      (RVal.num 0) none (some "one") =
      (true, (some (2291 / 100000), some (2297 / 100000))) := by
    rw [calc_t, epi_one _ _ _ _ _ _ (by decide), core_num, cmp_gt]
    rw [reprQ_21over10, gdp_21]
    norm_num [tSF_demo, eps10, abs_of_nonneg]
  have hds : determine_reported_significance ">" (RVal.num 0) (1 / 20) = some true := by
    norm_num [determine_reported_significance, pyFloat]
    all_goals simp_all
  have hrs : determine_recalculated_significance (2291 / 50000) (2297 / 50000) (1 / 20) =
      some true := by
    norm_num [determine_recalculated_significance]
  refine ⟨_, evalRecord_computed pyDemo (1 / 20) _ (RVal.num 0) (21 / 10) rfl rfl
    (by decide) (by decide), ?_, ?_⟩
  · simp only [evalComputedRow]
    norm_num [htwo]
    all_goals simp_all
  · simp only [evalComputedRow]
    norm_num [htwo, hone, hds, hrs]
    all_goals simp_all

/-!
Claim C5.
-/

/-- C5 (code bug): the pipeline passes `test.get("tail")` — Python `None`
when the tail field is absent — which defeats the signature default `"two"`:
for a t-test the `None` tail fails the tail check and the record evaluates to
the uncomputable outcome (verdict "No", range "N/A"), while the identical
record with tail `"two"` is consistent with a computed range. -/
theorem c5_missing_tail_bug :
    calculate_p_value pyDemo "t" (some ⟨25, true⟩) none (21 / 10) "="
        (RVal.num (1 / 20)) none none = (false, (none, none)) ∧
    calculate_p_value pyDemo "t" (some ⟨25, true⟩) none (21 / 10) "="
        (RVal.num (1 / 20)) none (some "two") =
      (true, (some (2291 / 50000), some (2297 / 50000))) ∧
    (∃ row, evalRecord pyDemo (1 / 20)
        { test_type := "t", df1 := some ⟨25, true⟩, test_value := some (21 / 10),
          operator := "=", reported_p_value := some (RVal.num (1 / 20)),
          tail := none } = some row ∧
      row.consistentStr = "No" ∧ row.rangeStr = "N/A") ∧
    (∃ row, evalRecord pyDemo (1 / 20)
        { test_type := "t", df1 := some ⟨25, true⟩, test_value := some (21 / 10),
          operator := "=", reported_p_value := some (RVal.num (1 / 20)),
          tail := some "two" } = some row ∧
      row.consistentStr = "Yes" ∧ row.rangeStr = "0.04582 to 0.04594") := by
  have hmiss : calculate_p_value pyDemo "t" (some ⟨25, true⟩) none (21 / 10) "="
      (RVal.num (1 / 20)) none none = (false, (none, none)) := by
    rw [calc_t, epi_missing_tail _ _ _ _ _ _ (by decide)]
  have htwo : calculate_p_value pyDemo "t" (some ⟨25, true⟩) none (21 / 10) "="
      (RVal.num (1 / 20)) none (some "two") =
      (true, (some (2291 / 50000), some (2297 / 50000))) := by
    rw [calc_t, epi_two _ _ _ _ _ _ (by decide), core_num, cmp_eq]
    rw [reprQ_21over10, gdp_21, reprQ_1over20]
    norm_num [eqdp_005, gdp_005, tSF_demo, eps10, abs_of_nonneg]
  refine ⟨hmiss, htwo, ⟨_, evalRecord_computed pyDemo (1 / 20) _ (RVal.num (1 / 20))
    (21 / 10) rfl rfl (by decide) (by decide), ?_, ?_⟩,
    ⟨_, evalRecord_computed pyDemo (1 / 20) _ (RVal.num (1 / 20))
    (21 / 10) rfl rfl (by decide) (by decide), ?_, ?_⟩⟩
  · simp only [evalComputedRow]
    norm_num [hmiss]
    all_goals simp_all
  · simp only [evalComputedRow]
    norm_num [hmiss, pyTruthy]
  · simp only [evalComputedRow]
    norm_num [htwo]
    all_goals simp_all
  · simp only [evalComputedRow]
    norm_num [htwo, pyTruthy, fmt5_low, fmt5_high]
    all_goals simp_all

/-!
Claim C8.
-/

/-- C8: for a t/z/r record with tail `"two"` (reported value present, numeric
or at least not `"ns"`, and not the r-missing-df1 special case), the row's
verdict is decided solely by the two-tailed evaluation, and the informational
note "Consistent for one-tailed, inconsistent for two-tailed." is present
exactly when the (possibly zero-overridden) two-tailed consistency flag is
false and a second invocation of the same evaluator with tail forced to
`"one"` and epsilon suppressed (`none`) is consistent. -/
theorem c8_one_tailed_fallback (env : Py) (α : ℚ) (test : TestRecord) (tv : ℚ)
    (rv : RVal) (c2 c1 : Bool) (pr pr1 : Option ℚ × Option ℚ)
    (hty : test.test_type ∈ (["t", "z", "r"] : List String))
    (htail : test.tail = some "two")
    (hrep : test.reported_p_value = some rv)
    (htv : test.test_value = some tv)
    (hns : rv ≠ RVal.strV "ns")
    (hdf : ¬(test.test_type = "r" ∧ test.df1 = none))
    (htwo : calculate_p_value env test.test_type test.df1 test.df2 tv test.operator rv
        none (some "two") = (c2, pr))
    (hone : calculate_p_value env test.test_type test.df1 test.df2 tv test.operator rv
        none (some "one") = (c1, pr1)) :
    ∃ row, evalRecord env α test = some row ∧
      row.consistentStr = (if c2 then "Yes" else "No") ∧
      ("Consistent for one-tailed, inconsistent for two-tailed." ∈ row.notes ↔
        ((if rv = RVal.num 0 then false else c2) = false ∧ c1 = true)) := by
  have hf : ¬(test.test_type = "f") := by
    intro h
    rw [h] at hty
    simp at hty
  have hcons : (evalComputedRow env α test rv tv).consistentStr =
      (if c2 then "Yes" else "No") := by
    simp only [evalComputedRow, hf, htail, false_and, and_false, if_false]
    rw [htwo]
  have hmem : ("Consistent for one-tailed, inconsistent for two-tailed." ∈
      (evalComputedRow env α test rv tv).notes ↔
        ((if rv = RVal.num 0 then false else c2) = false ∧ c1 = true)) := by
    simp only [evalComputedRow, hf, htail, false_and, and_false, if_false]
    rw [htwo, hone]
    by_cases hz : rv = RVal.num 0 <;> rcases c2 <;> rcases c1 <;>
      simp [hz, hty, hf] <;> split_ifs <;> simp_all
  exact ⟨_, evalRecord_computed env α test rv tv hrep htv hns hdf, hcons, hmem⟩

/-- C8 witness: a t-test reported `= 0.02` is two-tailed inconsistent but
one-tailed consistent, so the verdict stays "No" and the note appears. -/
theorem c8_one_tailed_fallback_witness :
    ∃ row, evalRecord pyDemo (1 / 20)
        { test_type := "t", df1 := some ⟨25, true⟩, test_value := some (21 / 10),
          operator := "=", reported_p_value := some (RVal.num (1 / 50)),
          tail := some "two" } = some row ∧
      row.consistentStr = "No" ∧
      "Consistent for one-tailed, inconsistent for two-tailed." ∈ row.notes := by
  have htwo : calculate_p_value pyDemo "t" (some ⟨25, true⟩) none (21 / 10) "="
      (RVal.num (1 / 50)) none (some "two") =
      (false, (some (2291 / 50000), some (2297 / 50000))) := by
    rw [calc_t, epi_two _ _ _ _ _ _ (by decide), core_num, cmp_eq]
    rw [reprQ_21over10, gdp_21, reprQ_1over50]
    norm_num [eqdp_002, gdp_002, tSF_demo, eps10, abs_of_nonneg]
  have hone : calculate_p_value pyDemo "t" (some ⟨25, true⟩) none (21 / 10) "="
      (RVal.num (1 / 50)) none (some "one") =
      (true, (some (2291 / 100000), some (2297 / 100000))) := by
    rw [calc_t, epi_one _ _ _ _ _ _ (by decide), core_num, cmp_eq]
    rw [reprQ_21over10, gdp_21, reprQ_1over50]
    norm_num [eqdp_002, gdp_002, tSF_demo, eps10, abs_of_nonneg]
  obtain ⟨row, h1, h2, h3⟩ := c8_one_tailed_fallback pyDemo (1 / 20)
    { test_type := "t", df1 := some ⟨25, true⟩, test_value := some (21 / 10),
      operator := "=", reported_p_value := some (RVal.num (1 / 50)),
      tail := some "two" } (21 / 10)
    (RVal.num (1 / 50)) false true _ _ (by decide) rfl rfl rfl (by decide)
    (by decide) htwo hone
  refine ⟨row, h1, by simpa using h2, h3.mpr (by norm_num)⟩

/-!
Claim C10.
-/

/-- C10: for every record on the general path, the row's range display shows
the two formatted bounds only when both are non-`None` and nonzero (Python
`all` truthiness); if either computed bound is `None` or `0`, the row shows
"N/A" — while the consistency verdict is still the one judged against the
computed range (pre-override comparator result, or the f-missing-df2
override). -/
theorem c10_range_display_truthiness (env : Py) (α : ℚ) (test : TestRecord)
    (tv : ℚ) (rv : RVal) (c : Bool) (pr : Option ℚ × Option ℚ)
    (hrep : test.reported_p_value = some rv)
    (htv : test.test_value = some tv)
    (hns : rv ≠ RVal.strV "ns")
    (hdf : ¬(test.test_type = "r" ∧ test.df1 = none))
    (hres : calculate_p_value env test.test_type test.df1 test.df2 tv test.operator rv
        (if test.test_type = "f" ∧ test.epsilon ≠ none ∧ pyIsInt test.df1 ∧ pyIsInt test.df2
          then test.epsilon else none)
        test.tail = (c, pr)) :
    ∃ row, evalRecord env α test = some row ∧
      row.rangeStr = (if pyTruthy pr.1 && pyTruthy pr.2 then
          env.fmt5 (pr.1.getD 0) ++ " to " ++ env.fmt5 (pr.2.getD 0) else "N/A") ∧
      ((pr.1 = some 0 ∨ pr.2 = some 0 ∨ pr.1 = none ∨ pr.2 = none) →
        row.rangeStr = "N/A") ∧
      row.consistentStr = (if pr.1 = none ∧ test.test_type = "f" ∧ test.df2 = none
          then "Cannot determine" else if c then "Yes" else "No") := by
  have hrange : (evalComputedRow env α test rv tv).rangeStr =
      (if pyTruthy pr.1 && pyTruthy pr.2 then
        env.fmt5 (pr.1.getD 0) ++ " to " ++ env.fmt5 (pr.2.getD 0) else "N/A") := by
    simp only [evalComputedRow]
    rw [hres]
  have hcons : (evalComputedRow env α test rv tv).consistentStr =
      (if pr.1 = none ∧ test.test_type = "f" ∧ test.df2 = none
        then "Cannot determine" else if c then "Yes" else "No") := by
    simp only [evalComputedRow]
    rw [hres]
  refine ⟨_, evalRecord_computed env α test rv tv hrep htv hns hdf, hrange, ?_, hcons⟩
  intro hcase
  rw [hrange]
  rcases hcase with h | h | h | h <;> rw [h] <;> simp [pyTruthy]

/-- C10 witness: a z-test at statistic 8 whose upper-window survival value
underflows to 0 — consistency is judged "Yes" against the computed range
`[0, 0.02]`, yet the row displays "N/A" because one bound is zero. -/
theorem c10_range_display_truthiness_witness :
    ∃ row, evalRecord pyDemo (1 / 20)
        { test_type := "z", test_value := some 8, operator := "<",
          reported_p_value := some (RVal.num (1 / 1000)),
          tail := some "two" } = some row ∧
      row.rangeStr = "N/A" ∧ row.consistentStr = "Yes" := by
  have hres : calculate_p_value pyDemo "z" none none 8 "<" (RVal.num (1 / 1000))
      none (some "two") = (true, (some 0, some (1 / 50))) := by
    rw [calc_z, epi_two _ _ _ _ _ _ (by decide), core_num, cmp_lt]
    rw [reprQ_8, gdp_80]
    norm_num [normSF_demo, eps10, abs_of_nonneg]
  obtain ⟨row, h1, h2, h3, h4⟩ := c10_range_display_truthiness pyDemo (1 / 20)
    { test_type := "z", test_value := some 8, operator := "<",
      reported_p_value := some (RVal.num (1 / 1000)), tail := some "two" }
    8 (RVal.num (1 / 1000)) true (some 0, some (1 / 50)) rfl rfl (by decide)
    (by decide) hres
  refine ⟨row, h1, h3 (Or.inl rfl), by simpa using h4⟩

end Statcheck
